import Mathlib

/-!
Shallow embedding of the Economic Pattern Detection & Resilience Scoring
Engine (src/backend/services/immuneMemoryService.ts).

Conventions of the embedding:
* JS numbers are modelled as exact rationals (ℚ).
* `Date.now()` / `new Date()` is modelled by an explicit `now : ℚ`
  parameter threaded through every operation that reads the clock.
* `dataStore.getTransactions()` (the external transaction ledger) is
  modelled by an explicit `ledger : List Transaction` parameter.
* A JS `Map` is modelled as an insertion-ordered association list with
  `mapGet` / `mapSet` mirroring `Map.get` / `Map.set`.
-/

namespace Immune

/-- Threat levels of decisions, patterns and signals. -/
inductive ThreatLevel
  | LOW
  | MEDIUM
  | HIGH
  | CRITICAL
deriving DecidableEq, Repr

/-- Transaction lifecycle status. -/
inductive TxStatus
  | pending
  | confirming
  | completed
  | failed
deriving DecidableEq, Repr

/-- A transaction record as consumed by the immune memory service
(fields of `Transaction` in types/dashboard.ts that the service reads;
`timestamp` is the epoch value of the JS `Date`). -/
structure Transaction where
  id : String
  recipient : String
  amount : ℚ
  timestamp : ℚ
  purpose : Option String
  status : TxStatus
deriving DecidableEq, Repr

/-- The decision payload consumed by the engine (`ImmuneDecisionResponse`),
restricted to the fields the service reads. -/
structure ImmuneDecisionResponse where
  threat_level : ThreatLevel
  patterns_detected : List String
  resilience_impact : ℚ
  explanation : String
deriving DecidableEq, Repr

/-- One occurrence of a detected pattern. -/
structure PatternOccurrence where
  transactionId : String
  timestamp : ℚ
  severity : ℚ
  context : String
deriving DecidableEq, Repr

/-- An economic pattern held in immune memory. -/
structure EconomicPattern where
  id : String
  type : String
  description : String
  detectedAt : ℚ
  occurrences : List PatternOccurrence
  threatLevel : ThreatLevel
  isActive : Bool
  learningConfidence : ℚ
  totalImpact : ℚ
deriving DecidableEq, Repr

/-- Cadence classification of a recipient's transactions. -/
inductive TimePattern
  | regular
  | sporadic
  | increasing
  | decreasing
deriving DecidableEq, Repr

/-- The per-recipient transaction history summary. -/
structure TransactionHistory where
  count : ℕ
  totalAmount : ℚ
  averageAmount : ℚ
  purposes : List (String × ℕ)
  timePattern : TimePattern
deriving DecidableEq, Repr

/-- The per-recipient risk assessment vector. -/
structure RiskAssessment where
  concentrationRisk : ℚ
  convenienceBias : ℚ
  valueDecline : ℚ
  overallRisk : ℚ
deriving DecidableEq, Repr

/-- A recipient profile. -/
structure RecipientProfile where
  address : String
  transactionHistory : TransactionHistory
  riskAssessment : RiskAssessment
  lastInteraction : ℚ
deriving DecidableEq, Repr

/-- A risk signal. -/
structure RiskSignal where
  id : String
  type : String
  severity : ThreatLevel
  description : String
  detectedAt : ℚ
  relatedTransactions : List String
  isResolved : Bool
deriving DecidableEq, Repr

/-- Direction of a sensitivity adjustment. -/
inductive Adjustment
  | increase
  | decrease
  | maintain
deriving DecidableEq, Repr

/-- Outcome recorded on an adaptation event. -/
inductive AdaptOutcome
  | success
  | failure
  | pending
deriving DecidableEq, Repr

/-- Outcome input to `adaptSensitivity`. -/
inductive Outcome
  | success
  | failure
deriving DecidableEq, Repr

/-- An adaptation audit event. -/
structure AdaptationEvent where
  id : String
  timestamp : ℚ
  patternType : String
  adjustment : Adjustment
  reason : String
  outcome : AdaptOutcome
deriving DecidableEq, Repr

/-- The aggregate immune memory state. -/
structure ImmuneMemory where
  patterns : List (String × EconomicPattern)
  recipients : List (String × RecipientProfile)
  signals : List RiskSignal
  adaptations : List AdaptationEvent
  resilienceScore : ℚ
  lastUpdated : ℚ
deriving DecidableEq, Repr

/-- `Map.get`: first binding of the key, if any. -/
def mapGet {α : Type} (m : List (String × α)) (k : String) : Option α :=
  (m.find? (fun kv => kv.1 == k)).map (fun kv => kv.2)

/-- `Map.set`: replace the binding in place if present, else append
(JS `Map` preserves insertion order). -/
def mapSet {α : Type} (m : List (String × α)) (k : String) (v : α) :
    List (String × α) :=
  if m.any (fun kv => kv.1 == k) then
    m.map (fun kv => if kv.1 == k then (k, v) else kv)
  else m ++ [(k, v)]

/-- `Array.slice(-n)`: the last `n` elements. -/
def takeLast {α : Type} (n : ℕ) (l : List α) : List α :=
  l.drop (l.length - n)

/-- `txs.reduce((sum, tx) => sum + tx.amount, 0)`. -/
def sumAmounts (l : List Transaction) : ℚ :=
  (l.map (fun tx => tx.amount)).sum

/-- `amount % 10 === 0` for a JS number: the amount is an integral
multiple of 10. -/
def isRoundTen (q : ℚ) : Bool :=
  (q / 10).den == 1

/-- Inter-transaction time deltas, in list order
(`tx[i].timestamp - tx[i-1].timestamp`). -/
def intervalsOf (transactions : List Transaction) : List ℚ :=
  List.zipWith (fun a b => b.timestamp - a.timestamp)
    transactions transactions.tail

/-- Arithmetic mean of a list (`reduce(+) / length`). -/
def meanOf (l : List ℚ) : ℚ :=
  l.sum / (l.length : ℚ)

/-- Population variance around the mean, as computed in the source. -/
def varianceOf (l : List ℚ) : ℚ :=
  ((l.map (fun x => (x - meanOf l) ^ 2)).sum) / (l.length : ℚ)

/-- `amounts.slice(1).every((a, i) => a >= amounts[i])`. -/
def nonDecreasingB (xs : List ℚ) : Bool :=
  (List.zipWith (fun a b => decide (a ≤ b)) xs xs.tail).all id

/-- `amounts.slice(1).every((a, i) => a <= amounts[i])`. -/
def nonIncreasingB (xs : List ℚ) : Bool :=
  (List.zipWith (fun a b => decide (b ≤ a)) xs xs.tail).all id

/-- `analyzeTimePattern` from the source: fewer than 3 transactions is
sporadic; low interval variance is regular; else classify by the
monotone trend of amounts. -/
def analyzeTimePattern (transactions : List Transaction) : TimePattern :=
  if transactions.length < 3 then .sporadic else
  let intervals := intervalsOf transactions
  if varianceOf intervals < meanOf intervals * (3/10) then .regular else
  let amounts := transactions.map (fun tx => tx.amount)
  if nonDecreasingB amounts then .increasing
  else if nonIncreasingB amounts then .decreasing
  else .sporadic

/-- `calculateConcentrationRisk`: recipient total over all spending,
doubled and capped at 1. -/
def calculateConcentrationRisk (ledger : List Transaction)
    (recipientTotal : ℚ) : ℚ :=
  let totalSpending := sumAmounts ledger
  if totalSpending == 0 then 0
  else min 1 (recipientTotal / totalSpending * 2)

/-- `calculateConvenienceBias`: share of round (multiple of 10, above 50)
transactions. -/
def calculateConvenienceBias (transactions : List Transaction) : ℚ :=
  let roundAmounts := transactions.filter
    (fun tx => isRoundTen tx.amount && decide (50 < tx.amount))
  (roundAmounts.length : ℚ) / (transactions.length : ℚ)

/-- `calculateValueDecline`: 0.6 when the mean of the last 3 amounts
exceeds the mean of the first 3 by more than 20%, else 0. -/
def calculateValueDecline (transactions : List Transaction) : ℚ :=
  if transactions.length < 3 then 0 else
  let amounts := transactions.map (fun tx => tx.amount)
  let recentAvg := (takeLast 3 amounts).sum / 3
  let earlierAvg := (amounts.take 3).sum / 3
  if earlierAvg * (12/10) < recentAvg then (6/10) else 0

/-- `buildRecipientProfile`: recompute the profile from the given
per-recipient transaction list (reads the full ledger only for the
concentration risk). -/
def buildRecipientProfile (ledger : List Transaction) (now : ℚ)
    (address : String) (transactions : List Transaction) :
    RecipientProfile :=
  let totalAmount := sumAmounts transactions
  let purposes := transactions.foldl (fun m tx =>
    match tx.purpose with
    | some p => mapSet m p ((mapGet m p).getD 0 + 1)
    | none => m) []
  { address
    transactionHistory :=
      { count := transactions.length
        totalAmount
        averageAmount := totalAmount / (transactions.length : ℚ)
        purposes
        timePattern := analyzeTimePattern transactions }
    riskAssessment :=
      { concentrationRisk := calculateConcentrationRisk ledger totalAmount
        convenienceBias := calculateConvenienceBias transactions
        valueDecline := calculateValueDecline transactions
        overallRisk := 0 }
    lastInteraction :=
      (transactions.getLast?.map (fun tx => tx.timestamp)).getD now }

/-- `updateRecipientProfile`: `existing || buildRecipientProfile(...)`
written back under the recipient key. -/
def updateRecipientProfile (ledger : List Transaction) (now : ℚ)
    (transaction : Transaction) (mem : ImmuneMemory) : ImmuneMemory :=
  let allRecipientTxs := ledger.filter
    (fun tx => tx.recipient == transaction.recipient)
  let profile := (mapGet mem.recipients transaction.recipient).getD
    (buildRecipientProfile ledger now transaction.recipient allRecipientTxs)
  { mem with recipients := mapSet mem.recipients transaction.recipient profile }

/-- The sub-50 transactions to the new transaction's recipient
(the `recipientTxs` filter of `detectRecurringMicroCosts`). -/
def microTxs (newTransaction : Transaction)
    (allTransactions : List Transaction) : List Transaction :=
  allTransactions.filter (fun tx =>
    tx.recipient == newTransaction.recipient && decide (tx.amount < 50))

/-- `detectRecurringMicroCosts`. -/
def detectRecurringMicroCosts (now : ℚ) (newTransaction : Transaction)
    (allTransactions : List Transaction) : Option EconomicPattern :=
  if 50 ≤ newTransaction.amount then none else
  let recipientTxs := microTxs newTransaction allTransactions
  if recipientTxs.length < 3 then none else
  let totalImpact := sumAmounts recipientTxs
  some
    { id := "pattern-micro-" ++ toString now
      type := "recurring_micro_costs"
      description := "Recurring small payments to " ++ newTransaction.recipient
      detectedAt := now
      occurrences := recipientTxs.map (fun tx =>
        { transactionId := tx.id
          timestamp := tx.timestamp
          severity := tx.amount / 50
          context := tx.purpose.getD "No purpose specified" })
      threatLevel :=
        if 200 < totalImpact then .HIGH
        else if 100 < totalImpact then .MEDIUM else .LOW
      isActive := true
      learningConfidence := 7/10
      totalImpact }

/-- Total historical spend to the new transaction's recipient. -/
def recipientTotalOf (newTransaction : Transaction)
    (allTransactions : List Transaction) : ℚ :=
  sumAmounts (allTransactions.filter
    (fun tx => tx.recipient == newTransaction.recipient))

/-- `detectVendorConcentration`. -/
def detectVendorConcentration (now : ℚ) (newTransaction : Transaction)
    (allTransactions : List Transaction) : Option EconomicPattern :=
  let recipientTotal := recipientTotalOf newTransaction allTransactions
  let totalSpending := sumAmounts allTransactions
  if totalSpending == 0 then none else
  let concentration := recipientTotal / totalSpending
  if concentration < 3/10 then none else
  some
    { id := "pattern-concentration-" ++ toString now
      type := "vendor_concentration"
      description :=
        "High concentration of spending with " ++ newTransaction.recipient
      detectedAt := now
      occurrences :=
        [{ transactionId := newTransaction.id
           timestamp := now
           severity := concentration
           context := toString (round (concentration * 100)) ++
             "% of total spending" }]
      threatLevel :=
        if 6/10 < concentration then .HIGH
        else if 4/10 < concentration then .MEDIUM else .LOW
      isActive := true
      learningConfidence := 8/10
      totalImpact := recipientTotal }

/-- `detectConvenienceBias`. -/
def detectConvenienceBias (now : ℚ) (newTransaction : Transaction)
    (allTransactions : List Transaction) : Option EconomicPattern :=
  if !(isRoundTen newTransaction.amount) || newTransaction.amount ≤ 50
  then none else
  let roundAmountTxs := allTransactions.filter
    (fun tx => isRoundTen tx.amount && decide (50 < tx.amount))
  let biasShare := (roundAmountTxs.length : ℚ) / (allTransactions.length : ℚ)
  if biasShare < 6/10 then none else
  some
    { id := "pattern-convenience-" ++ toString now
      type := "convenience_bias"
      description :=
        "Frequent use of round payment amounts suggesting convenience bias"
      detectedAt := now
      occurrences := (takeLast 5 roundAmountTxs).map (fun tx =>
        { transactionId := tx.id
          timestamp := tx.timestamp
          severity := biasShare
          context := "Round amount: " ++ toString tx.amount ++ " USDC" })
      threatLevel := if 8/10 < biasShare then .MEDIUM else .LOW
      isActive := true
      learningConfidence := 6/10
      totalImpact := (roundAmountTxs.map (fun tx => tx.amount * (1/10))).sum }

/-- Stable insertion step: place `x` after all earlier items whose
timestamp is not greater. -/
def insertTx (x : Transaction) : List Transaction → List Transaction
  | [] => [x]
  | y :: ys =>
    if y.timestamp ≤ x.timestamp then y :: insertTx x ys else x :: y :: ys

/-- `sort((a, b) => a.timestamp - b.timestamp)`: stable ascending sort
by timestamp. -/
def sortByTimestamp (l : List Transaction) : List Transaction :=
  l.foldl (fun acc x => insertTx x acc) []

/-- `detectDecliningValue`. -/
def detectDecliningValue (now : ℚ) (newTransaction : Transaction)
    (allTransactions : List Transaction) : Option EconomicPattern :=
  let recipientTxs := sortByTimestamp (allTransactions.filter
    (fun tx => tx.recipient == newTransaction.recipient))
  if recipientTxs.length < 4 then none else
  let recentAvg := sumAmounts (takeLast 2 recipientTxs) / 2
  let earlierAvg := sumAmounts (recipientTxs.take 2) / 2
  if recentAvg ≤ earlierAvg * (12/10) then none else
  some
    { id := "pattern-declining-" ++ toString now
      type := "declining_value"
      description := "Increasing payments to " ++ newTransaction.recipient ++
        " may indicate declining value"
      detectedAt := now
      occurrences := (takeLast 3 recipientTxs).map (fun tx =>
        { transactionId := tx.id
          timestamp := tx.timestamp
          severity := tx.amount / earlierAvg
          context := "Amount: " ++ toString tx.amount ++
            " vs earlier avg: " ++ toString earlierAvg })
      threatLevel :=
        if earlierAvg * (15/10) < recentAvg then .HIGH else .MEDIUM
      isActive := true
      learningConfidence := 1/2
      totalImpact := recentAvg - earlierAvg }

/-- `detectPatterns`: run the four detectors in order, keeping the hits. -/
def detectPatterns (now : ℚ) (newTransaction : Transaction)
    (allTransactions : List Transaction) : List EconomicPattern :=
  (detectRecurringMicroCosts now newTransaction allTransactions).toList ++
  (detectVendorConcentration now newTransaction allTransactions).toList ++
  (detectConvenienceBias now newTransaction allTransactions).toList ++
  (detectDecliningValue now newTransaction allTransactions).toList

/-- Severity derived from a decision's threat level in
`recordPatternDetection`. -/
def severityOf (threatLevel : ThreatLevel) : ℚ :=
  match threatLevel with
  | .CRITICAL => 1
  | .HIGH => 8/10
  | .MEDIUM => 6/10
  | .LOW => 4/10

/-- `recordPatternDetection`: key the pattern by
`patternType-recipient-Date.now()`, append an occurrence when the key is
already present, else create a fresh pattern under that key. -/
def recordPatternDetection (now : ℚ) (patternType : String)
    (transaction : Transaction) (threatLevel : ThreatLevel)
    (mem : ImmuneMemory) : ImmuneMemory :=
  let patternId := patternType ++ "-" ++ transaction.recipient ++ "-" ++
    toString now
  let occ : PatternOccurrence :=
    { transactionId := transaction.id
      timestamp := transaction.timestamp
      severity := severityOf threatLevel
      context := transaction.purpose.getD "No context" }
  match mapGet mem.patterns patternId with
  | some existingPattern =>
    let updated := { existingPattern with
      occurrences := existingPattern.occurrences ++ [occ] }
    { mem with patterns := mapSet mem.patterns patternId updated }
  | none =>
    let fresh : EconomicPattern :=
      { id := patternId
        type := patternType
        description := patternType ++ " detected for " ++
          transaction.recipient
        detectedAt := now
        occurrences := [occ]
        threatLevel := threatLevel
        isActive := true
        learningConfidence := 1/2
        totalImpact := transaction.amount }
    { mem with patterns := mapSet mem.patterns patternId fresh }

/-- `updateResilienceScore`: clamp the incremented score to [0, 100]. -/
def updateResilienceScore (impact : ℚ) (mem : ImmuneMemory) : ImmuneMemory :=
  { mem with resilienceScore := max 0 (min 100 (mem.resilienceScore + impact)) }

/-- The signal type chosen in `generateRiskSignal`:
`patterns_detected[0] || 'recurring_micro_costs'` (JS `||` treats the
empty string and a missing element as absent). -/
def fallbackType (l : List String) : String :=
  match l.head? with
  | some s => if s == "" then "recurring_micro_costs" else s
  | none => "recurring_micro_costs"

/-- Display string of a threat level (used in signal descriptions). -/
def threatString (t : ThreatLevel) : String :=
  match t with
  | .LOW => "LOW"
  | .MEDIUM => "MEDIUM"
  | .HIGH => "HIGH"
  | .CRITICAL => "CRITICAL"

/-- The risk signal constructed by `generateRiskSignal`. -/
def mkRiskSignal (now : ℚ) (transaction : Transaction)
    (decision : ImmuneDecisionResponse) : RiskSignal :=
  { id := "signal-" ++ toString now
    type := fallbackType decision.patterns_detected
    severity := decision.threat_level
    description := threatString decision.threat_level ++
      " threat detected: " ++ decision.explanation
    detectedAt := now
    relatedTransactions := [transaction.id]
    isResolved := false }

/-- `generateRiskSignal`: push the new signal. -/
def generateRiskSignal (now : ℚ) (transaction : Transaction)
    (decision : ImmuneDecisionResponse) (mem : ImmuneMemory) :
    ImmuneMemory :=
  { mem with signals := mem.signals ++ [mkRiskSignal now transaction decision] }

/-- `updateMemoryFromTransaction` (the spec's `recordTransactionOutcome`):
profile upsert, one `recordPatternDetection` per detected label, score
clamp, and a risk signal for HIGH/CRITICAL decisions. -/
def updateMemoryFromTransaction (ledger : List Transaction) (now : ℚ)
    (transaction : Transaction) (decision : ImmuneDecisionResponse)
    (mem : ImmuneMemory) : ImmuneMemory :=
  let m1 := updateRecipientProfile ledger now transaction mem
  let m2 := decision.patterns_detected.foldl
    (fun m patternType =>
      recordPatternDetection now patternType transaction
        decision.threat_level m) m1
  let m3 := updateResilienceScore decision.resilience_impact m2
  let m4 :=
    if decision.threat_level = .HIGH ∨ decision.threat_level = .CRITICAL
    then generateRiskSignal now transaction decision m3 else m3
  { m4 with lastUpdated := now }

/-- The per-pattern confidence update applied by `adaptSensitivity`. -/
def adaptConfidence (outcome : Outcome) (c : ℚ) : ℚ :=
  match outcome with
  | .success => min 1 (c + 1/10)
  | .failure => max (1/10) (c - 1/10)

/-- `adaptSensitivity`: append an adaptation event and move the
confidence of every pattern of the given type by one step. -/
def adaptSensitivity (now : ℚ) (patternType : String) (outcome : Outcome)
    (mem : ImmuneMemory) : ImmuneMemory :=
  let adaptation : AdaptationEvent :=
    { id := "adapt-" ++ toString now
      timestamp := now
      patternType := patternType
      adjustment :=
        match outcome with
        | .success => .maintain
        | .failure => .increase
      reason :=
        match outcome with
        | .success => "Pattern detection was accurate"
        | .failure => "Pattern detection needs improvement"
      outcome :=
        match outcome with
        | .success => .success
        | .failure => .failure }
  { mem with
      adaptations := mem.adaptations ++ [adaptation]
      patterns := mem.patterns.map (fun kv =>
        if kv.2.type == patternType then
          (kv.1, { kv.2 with
            learningConfidence := adaptConfidence outcome kv.2.learningConfidence })
        else kv) }

/-- `getActiveRiskSignals`. -/
def getActiveRiskSignals (mem : ImmuneMemory) : List RiskSignal :=
  mem.signals.filter (fun s => !s.isResolved)

/-- The fresh memory built by the service constructor. -/
def initialMemory (now : ℚ) : ImmuneMemory :=
  { patterns := []
    recipients := []
    signals := []
    adaptations := []
    resilienceScore := 75
    lastUpdated := now }

/-- A completed transaction with no purpose, for concrete scenarios. -/
def sampleTx (i : String) (r : String) (a : ℚ) (ts : ℚ) : Transaction :=
  { id := i
    recipient := r
    amount := a
    timestamp := ts
    purpose := none
    status := .completed }

/-- A decision with the given threat level, labels and impact. -/
def sampleDecision (tl : ThreatLevel) (pats : List String) (impact : ℚ) :
    ImmuneDecisionResponse :=
  { threat_level := tl
    patterns_detected := pats
    resilience_impact := impact
    explanation := "sample" }

theorem updateRecipientProfile_score (ledger : List Transaction) (now : ℚ)
    (tx : Transaction) (mem : ImmuneMemory) :
    (updateRecipientProfile ledger now tx mem).resilienceScore =
      mem.resilienceScore := rfl

theorem updateRecipientProfile_signals (ledger : List Transaction) (now : ℚ)
    (tx : Transaction) (mem : ImmuneMemory) :
    (updateRecipientProfile ledger now tx mem).signals = mem.signals := rfl

theorem recordPatternDetection_score (now : ℚ) (pt : String)
    (tx : Transaction) (tl : ThreatLevel) (mem : ImmuneMemory) :
    (recordPatternDetection now pt tx tl mem).resilienceScore =
      mem.resilienceScore := by
  unfold recordPatternDetection
  dsimp only
  split <;> rfl

theorem recordPatternDetection_signals (now : ℚ) (pt : String)
    (tx : Transaction) (tl : ThreatLevel) (mem : ImmuneMemory) :
    (recordPatternDetection now pt tx tl mem).signals = mem.signals := by
  unfold recordPatternDetection
  dsimp only
  split <;> rfl

theorem foldl_record_score (now : ℚ) (tx : Transaction) (tl : ThreatLevel)
    (pts : List String) (mem : ImmuneMemory) :
    ((pts.foldl
      (fun m patternType => recordPatternDetection now patternType tx tl m)
      mem).resilienceScore) = mem.resilienceScore := by
  induction pts generalizing mem with
  | nil => rfl
  | cons p ps ih =>
    rw [List.foldl_cons, ih, recordPatternDetection_score]

theorem foldl_record_signals (now : ℚ) (tx : Transaction) (tl : ThreatLevel)
    (pts : List String) (mem : ImmuneMemory) :
    ((pts.foldl
      (fun m patternType => recordPatternDetection now patternType tx tl m)
      mem).signals) = mem.signals := by
  induction pts generalizing mem with
  | nil => rfl
  | cons p ps ih =>
    rw [List.foldl_cons, ih, recordPatternDetection_signals]

theorem updateMemoryFromTransaction_score (ledger : List Transaction)
    (now : ℚ) (tx : Transaction) (d : ImmuneDecisionResponse)
    (mem : ImmuneMemory) :
    (updateMemoryFromTransaction ledger now tx d mem).resilienceScore =
      max 0 (min 100 (mem.resilienceScore + d.resilience_impact)) := by
  unfold updateMemoryFromTransaction
  split <;>
    simp [generateRiskSignal, updateResilienceScore, foldl_record_score,
      updateRecipientProfile_score]

theorem updateMemoryFromTransaction_signals (ledger : List Transaction)
    (now : ℚ) (tx : Transaction) (d : ImmuneDecisionResponse)
    (mem : ImmuneMemory) :
    (updateMemoryFromTransaction ledger now tx d mem).signals =
      (if d.threat_level = .HIGH ∨ d.threat_level = .CRITICAL
       then mem.signals ++ [mkRiskSignal now tx d] else mem.signals) := by
  unfold updateMemoryFromTransaction
  split <;>
    simp_all [generateRiskSignal, updateResilienceScore, foldl_record_signals,
      updateRecipientProfile_signals]

/-- C2: for every starting resilience score in [0, 100] and every finite
sequence of transaction/decision steps applied through
`updateMemoryFromTransaction`, with resilience-impact deltas of any
magnitude or sign, the resulting resilience score stays in [0, 100]. -/
theorem C2_resilience_always_clamped (mem : ImmuneMemory)
    (h0 : 0 ≤ mem.resilienceScore) (h1 : mem.resilienceScore ≤ 100)
    (steps :
      List (List Transaction × ℚ × Transaction × ImmuneDecisionResponse)) :
    0 ≤ (steps.foldl
      (fun m s => updateMemoryFromTransaction s.1 s.2.1 s.2.2.1 s.2.2.2 m)
      mem).resilienceScore ∧
    (steps.foldl
      (fun m s => updateMemoryFromTransaction s.1 s.2.1 s.2.2.1 s.2.2.2 m)
      mem).resilienceScore ≤ 100 := by
  induction steps generalizing mem with
  | nil => exact ⟨h0, h1⟩
  | cons s rest ih =>
    rw [List.foldl_cons]
    apply ih
    · rw [updateMemoryFromTransaction_score]
      exact le_max_left 0 _
    · rw [updateMemoryFromTransaction_score]
      exact max_le (by norm_num) (min_le_left _ _)

/-- Witness for C2: a concrete run from the initial memory with deltas of
+1000 and -1000 stays in [0, 100]. -/
theorem C2_resilience_always_clamped_witness :
    0 ≤ ([(([] : List Transaction), (1 : ℚ), sampleTx "t1" "v" 10 1,
        sampleDecision .LOW [] 1000),
      (([] : List Transaction), (2 : ℚ), sampleTx "t2" "v" 10 2,
        sampleDecision .LOW [] (-1000))].foldl
      (fun m s => updateMemoryFromTransaction s.1 s.2.1 s.2.2.1 s.2.2.2 m)
      (initialMemory 0)).resilienceScore ∧
    ([(([] : List Transaction), (1 : ℚ), sampleTx "t1" "v" 10 1,
        sampleDecision .LOW [] 1000),
      (([] : List Transaction), (2 : ℚ), sampleTx "t2" "v" 10 2,
        sampleDecision .LOW [] (-1000))].foldl
      (fun m s => updateMemoryFromTransaction s.1 s.2.1 s.2.2.1 s.2.2.2 m)
      (initialMemory 0)).resilienceScore ≤ 100 :=
  C2_resilience_always_clamped (initialMemory 0) (by decide) (by decide) _

/-- C5: a LOW or MEDIUM decision never appends a risk signal through
`updateMemoryFromTransaction`; a HIGH or CRITICAL decision appends
exactly one new signal referencing the transaction id, with its resolved
flag false. -/
theorem C5_signal_generation_threshold (ledger : List Transaction)
    (now : ℚ) (tx : Transaction) (d : ImmuneDecisionResponse)
    (mem : ImmuneMemory) :
    ((d.threat_level = .LOW ∨ d.threat_level = .MEDIUM) →
      (updateMemoryFromTransaction ledger now tx d mem).signals =
        mem.signals) ∧
    ((d.threat_level = .HIGH ∨ d.threat_level = .CRITICAL) →
      (updateMemoryFromTransaction ledger now tx d mem).signals =
        mem.signals ++ [mkRiskSignal now tx d] ∧
      (mkRiskSignal now tx d).relatedTransactions = [tx.id] ∧
      (mkRiskSignal now tx d).isResolved = false) := by
  constructor
  · intro h
    rcases h with h | h <;> simp [updateMemoryFromTransaction_signals, h]
  · intro h
    refine ⟨?_, rfl, rfl⟩
    rcases h with h | h <;> simp [updateMemoryFromTransaction_signals, h]

/-- Witness for C5: a MEDIUM decision leaves the signal list unchanged, a
HIGH decision appends exactly the generated signal. -/
theorem C5_signal_generation_threshold_witness :
    (updateMemoryFromTransaction [] 1 (sampleTx "t1" "v" 10 1)
      (sampleDecision .MEDIUM [] 0) (initialMemory 0)).signals =
      (initialMemory 0).signals ∧
    (updateMemoryFromTransaction [] 1 (sampleTx "t1" "v" 10 1)
      (sampleDecision .HIGH [] 0) (initialMemory 0)).signals =
      (initialMemory 0).signals ++
        [mkRiskSignal 1 (sampleTx "t1" "v" 10 1)
          (sampleDecision .HIGH [] 0)] :=
  ⟨(C5_signal_generation_threshold [] 1 (sampleTx "t1" "v" 10 1)
      (sampleDecision .MEDIUM [] 0) (initialMemory 0)).1 (Or.inr rfl),
   ((C5_signal_generation_threshold [] 1 (sampleTx "t1" "v" 10 1)
      (sampleDecision .HIGH [] 0) (initialMemory 0)).2 (Or.inl rfl)).1⟩

/-- C10: with an empty detected-patterns list, a HIGH or CRITICAL decision
still appends a risk signal, and that signal's pattern type falls back to
"recurring_micro_costs". -/
theorem C10_empty_patterns_signal_fallback (ledger : List Transaction)
    (now : ℚ) (tx : Transaction) (d : ImmuneDecisionResponse)
    (mem : ImmuneMemory) (hp : d.patterns_detected = [])
    (ht : d.threat_level = .HIGH ∨ d.threat_level = .CRITICAL) :
    (updateMemoryFromTransaction ledger now tx d mem).signals =
      mem.signals ++ [mkRiskSignal now tx d] ∧
    (mkRiskSignal now tx d).type = "recurring_micro_costs" := by
  constructor
  · rcases ht with h | h <;> simp [updateMemoryFromTransaction_signals, h]
  · simp [mkRiskSignal, fallbackType, hp]

/-- Witness for C10: a CRITICAL decision with no detected patterns appends
one signal with the fallback pattern type. -/
theorem C10_empty_patterns_signal_fallback_witness :
    (updateMemoryFromTransaction [] 1 (sampleTx "t1" "v" 10 1)
      (sampleDecision .CRITICAL [] 0) (initialMemory 0)).signals =
      (initialMemory 0).signals ++
        [mkRiskSignal 1 (sampleTx "t1" "v" 10 1)
          (sampleDecision .CRITICAL [] 0)] ∧
    (mkRiskSignal 1 (sampleTx "t1" "v" 10 1)
      (sampleDecision .CRITICAL [] 0)).type = "recurring_micro_costs" :=
  C10_empty_patterns_signal_fallback [] 1 (sampleTx "t1" "v" 10 1)
    (sampleDecision .CRITICAL [] 0) (initialMemory 0) rfl (Or.inr rfl)

/-- C4 counterexample: with ledger spend 30 to "a" and 70 to "b", the
counterparty "a" holds exactly a 30% share of total spend, yet the Vendor
Concentration detector fires (with threat level LOW) — the claim says a
share of exactly 30% never triggers it. -/
theorem C4_concentration_boundary_counterexample :
    recipientTotalOf (sampleTx "n" "a" 30 3)
        [sampleTx "x" "a" 30 1, sampleTx "y" "b" 70 2] /
      sumAmounts [sampleTx "x" "a" 30 1, sampleTx "y" "b" 70 2] = 3/10 ∧
    (detectVendorConcentration 3 (sampleTx "n" "a" 30 3)
      [sampleTx "x" "a" 30 1, sampleTx "y" "b" 70 2]).isSome = true ∧
    (detectVendorConcentration 3 (sampleTx "n" "a" 30 3)
      [sampleTx "x" "a" 30 1, sampleTx "y" "b" 70 2]).map
        (fun p => p.threatLevel) = some .LOW := by
  refine ⟨?_, ?_, ?_⟩ <;>
    simp [detectVendorConcentration, recipientTotalOf, sumAmounts,
      sampleTx] <;> norm_num

/-- C4 (amended): with nonzero total spend, the Vendor Concentration
detector fires exactly when the counterparty's share of total spend is at
least 30% (hence it does fire at exactly 30%); when it fires, the threat
level is HIGH strictly above a 60% share, MEDIUM strictly above 40%,
else LOW. -/
theorem C4_concentration_boundary_amended (now : ℚ)
    (newTx : Transaction) (allTxs : List Transaction)
    (h : sumAmounts allTxs ≠ 0) :
    ((detectVendorConcentration now newTx allTxs).isSome = true ↔
      3/10 ≤ recipientTotalOf newTx allTxs / sumAmounts allTxs) ∧
    (∀ p : EconomicPattern,
      detectVendorConcentration now newTx allTxs = some p →
      p.threatLevel =
        (if 6/10 < recipientTotalOf newTx allTxs / sumAmounts allTxs
         then .HIGH
         else if 4/10 < recipientTotalOf newTx allTxs / sumAmounts allTxs
         then .MEDIUM
         else .LOW)) := by
  have hb : (sumAmounts allTxs == 0) = false := by
    simpa using h
  unfold detectVendorConcentration
  simp only [hb, Bool.false_eq_true, if_false]
  split
  · case _ hc =>
    constructor
    · simp [not_le.mpr hc]
    · intro p hp
      exact Option.noConfusion hp
  · case _ hc =>
    constructor
    · simp [not_lt.mp hc]
    · intro p hp
      injection hp with hp
      subst hp
      rfl

/-- Witness for the amended C4 at a 45% share: the detector fires and the
threat level matches the banding (MEDIUM). -/
theorem C4_concentration_boundary_amended_witness :
    ((detectVendorConcentration 3 (sampleTx "n" "a" 45 3)
      [sampleTx "x" "a" 45 1, sampleTx "y" "b" 55 2]).isSome = true ↔
      3/10 ≤ recipientTotalOf (sampleTx "n" "a" 45 3)
          [sampleTx "x" "a" 45 1, sampleTx "y" "b" 55 2] /
        sumAmounts [sampleTx "x" "a" 45 1, sampleTx "y" "b" 55 2]) ∧
    (∀ p : EconomicPattern,
      detectVendorConcentration 3 (sampleTx "n" "a" 45 3)
        [sampleTx "x" "a" 45 1, sampleTx "y" "b" 55 2] = some p →
      p.threatLevel =
        (if 6/10 < recipientTotalOf (sampleTx "n" "a" 45 3)
            [sampleTx "x" "a" 45 1, sampleTx "y" "b" 55 2] /
          sumAmounts [sampleTx "x" "a" 45 1, sampleTx "y" "b" 55 2]
         then .HIGH
         else if 4/10 < recipientTotalOf (sampleTx "n" "a" 45 3)
            [sampleTx "x" "a" 45 1, sampleTx "y" "b" 55 2] /
          sumAmounts [sampleTx "x" "a" 45 1, sampleTx "y" "b" 55 2]
         then .MEDIUM
         else .LOW)) :=
  C4_concentration_boundary_amended 3 (sampleTx "n" "a" 45 3)
    [sampleTx "x" "a" 45 1, sampleTx "y" "b" 55 2]
    (by simp [sumAmounts, sampleTx]; norm_num)

/-- C6: the Recurring Micro-Costs detector never fires for a transaction
of amount exactly 50; it fires at amount 49.99 when at least 3 ledger
transactions to the same counterparty are below 50; and whenever it
fires, the threat level is HIGH when the cumulative sub-50 total exceeds
200, MEDIUM when it exceeds 100, else LOW. -/
theorem C6_micro_cost_boundary :
    (∀ (now : ℚ) (newTx : Transaction) (allTxs : List Transaction),
      newTx.amount = 50 →
      detectRecurringMicroCosts now newTx allTxs = none) ∧
    (∀ (now : ℚ) (newTx : Transaction) (allTxs : List Transaction),
      newTx.amount = 4999/100 → 3 ≤ (microTxs newTx allTxs).length →
      (detectRecurringMicroCosts now newTx allTxs).isSome = true) ∧
    (∀ (now : ℚ) (newTx : Transaction) (allTxs : List Transaction)
      (p : EconomicPattern),
      detectRecurringMicroCosts now newTx allTxs = some p →
      p.threatLevel =
        (if 200 < sumAmounts (microTxs newTx allTxs) then .HIGH
         else if 100 < sumAmounts (microTxs newTx allTxs) then .MEDIUM
         else .LOW)) := by
  refine ⟨?_, ?_, ?_⟩
  · intro now newTx allTxs h
    unfold detectRecurringMicroCosts
    rw [if_pos (le_of_eq h.symm)]
  · intro now newTx allTxs h hlen
    unfold detectRecurringMicroCosts
    rw [if_neg (by rw [h]; norm_num), if_neg (by omega)]
    rfl
  · intro now newTx allTxs p hp
    unfold detectRecurringMicroCosts at hp
    dsimp only at hp
    split at hp
    · exact Option.noConfusion hp
    · split at hp
      · exact Option.noConfusion hp
      · injection hp with hp
        subst hp
        rfl

/-- Witness for C6: at amount exactly 50 the detector stays silent; at
49.99 with three sub-50 ledger transactions to the same counterparty it
fires. -/
theorem C6_micro_cost_boundary_witness :
    detectRecurringMicroCosts 4 (sampleTx "n" "m" 50 4)
      [sampleTx "a" "m" 10 1, sampleTx "b" "m" 10 2, sampleTx "c" "m" 10 3]
      = none ∧
    (detectRecurringMicroCosts 4 (sampleTx "n" "m" (4999/100) 4)
      [sampleTx "a" "m" 10 1, sampleTx "b" "m" 10 2,
        sampleTx "c" "m" 10 3]).isSome = true :=
  ⟨C6_micro_cost_boundary.1 4 (sampleTx "n" "m" 50 4)
      [sampleTx "a" "m" 10 1, sampleTx "b" "m" 10 2, sampleTx "c" "m" 10 3]
      rfl,
   C6_micro_cost_boundary.2.1 4 (sampleTx "n" "m" (4999/100) 4)
      [sampleTx "a" "m" 10 1, sampleTx "b" "m" 10 2, sampleTx "c" "m" 10 3]
      rfl (by decide)⟩

/-- C7: cadence classification — fewer than 3 transactions is always
sporadic; with 3 or more, interval variance below 30% of the mean
interval gives regular; otherwise the result is increasing when the
amounts are monotonically non-decreasing, decreasing when monotonically
non-increasing (with the non-decreasing check taking precedence), else
sporadic. -/
theorem C7_cadence_classification (txs : List Transaction) :
    (txs.length < 3 → analyzeTimePattern txs = .sporadic) ∧
    (3 ≤ txs.length →
      varianceOf (intervalsOf txs) < meanOf (intervalsOf txs) * (3/10) →
      analyzeTimePattern txs = .regular) ∧
    (3 ≤ txs.length →
      ¬ varianceOf (intervalsOf txs) < meanOf (intervalsOf txs) * (3/10) →
      analyzeTimePattern txs =
        (if nonDecreasingB (txs.map (fun tx => tx.amount)) then .increasing
         else if nonIncreasingB (txs.map (fun tx => tx.amount))
         then .decreasing
         else .sporadic)) := by
  refine ⟨?_, ?_, ?_⟩
  · intro h
    unfold analyzeTimePattern
    rw [if_pos h]
  · intro h hv
    unfold analyzeTimePattern
    rw [if_neg (by omega), if_pos hv]
  · intro h hv
    unfold analyzeTimePattern
    rw [if_neg (by omega), if_neg hv]

/-- Witness for C7: a singleton list is sporadic; evenly spaced
transactions are regular; irregular spacing with strictly decreasing
amounts classifies as decreasing. -/
theorem C7_cadence_classification_witness :
    analyzeTimePattern [sampleTx "a" "v" 1 0] = .sporadic ∧
    analyzeTimePattern [sampleTx "a" "v" 1 0, sampleTx "b" "v" 2 10,
      sampleTx "c" "v" 3 20] = .regular ∧
    analyzeTimePattern [sampleTx "a" "v" 3 0, sampleTx "b" "v" 2 1,
      sampleTx "c" "v" 1 100] = .decreasing :=
  ⟨(C7_cadence_classification [sampleTx "a" "v" 1 0]).1 (by decide),
   (C7_cadence_classification [sampleTx "a" "v" 1 0, sampleTx "b" "v" 2 10,
      sampleTx "c" "v" 3 20]).2.1 (by decide)
     (by simp [varianceOf, meanOf, intervalsOf, sampleTx]; norm_num),
   Eq.trans
     ((C7_cadence_classification [sampleTx "a" "v" 3 0,
        sampleTx "b" "v" 2 1, sampleTx "c" "v" 1 100]).2.2
       (by decide)
       (by simp [varianceOf, meanOf, intervalsOf, sampleTx]; norm_num))
     (by decide)⟩

/-- A stored pattern with learning confidence 0.5, for the adaptation
scenario. -/
def samplePattern : EconomicPattern :=
  { id := "k"
    type := "recurring_micro_costs"
    description := "d"
    detectedAt := 0
    occurrences := []
    threatLevel := .LOW
    isActive := true
    learningConfidence := 1/2
    totalImpact := 0 }

/-- A memory holding exactly one pattern, of type recurring_micro_costs,
with confidence 0.5. -/
def sampleMemAdapt : ImmuneMemory :=
  { patterns := [("k", samplePattern)]
    recipients := []
    signals := []
    adaptations := []
    resilienceScore := 75
    lastUpdated := 0 }

/-- C8: adaptSensitivity rewrites exactly the patterns of the given type,
replacing their confidence by adaptConfidence, which moves by a fixed 0.1
step capped at 1.0 on success and floored at 0.1 on failure; from
confidence 0.5, three consecutive successes through adaptSensitivity give
0.8 and three consecutive failures give 0.2. -/
theorem C8_adaptation_monotonicity (now : ℚ) (pt : String) (oc : Outcome)
    (mem : ImmuneMemory) :
    ((adaptSensitivity now pt oc mem).patterns =
      mem.patterns.map (fun kv =>
        if kv.2.type == pt then
          (kv.1, { kv.2 with
            learningConfidence :=
              adaptConfidence oc kv.2.learningConfidence })
        else kv)) ∧
    (∀ c : ℚ, adaptConfidence .success c = min 1 (c + 1/10) ∧
      adaptConfidence .failure c = max (1/10) (c - 1/10)) ∧
    ((adaptSensitivity 3 "recurring_micro_costs" .success
      (adaptSensitivity 2 "recurring_micro_costs" .success
        (adaptSensitivity 1 "recurring_micro_costs" .success
          sampleMemAdapt))).patterns.map
            (fun kv => kv.2.learningConfidence)) = [8/10] ∧
    ((adaptSensitivity 3 "recurring_micro_costs" .failure
      (adaptSensitivity 2 "recurring_micro_costs" .failure
        (adaptSensitivity 1 "recurring_micro_costs" .failure
          sampleMemAdapt))).patterns.map
            (fun kv => kv.2.learningConfidence)) = [2/10] := by
  refine ⟨rfl, fun c => ⟨rfl, rfl⟩, ?_, ?_⟩ <;>
    simp [adaptSensitivity, adaptConfidence, sampleMemAdapt,
      samplePattern] <;> norm_num

/-- The failing run for C1: two transactions to the same counterparty,
both carrying the same detected pattern label, processed at clock values
1 and 2. -/
def memTwoDetections : ImmuneMemory :=
  updateMemoryFromTransaction [] 2 (sampleTx "t2" "v" 5 2)
    (sampleDecision .LOW ["recurring_micro_costs"] 0)
    (updateMemoryFromTransaction [] 1 (sampleTx "t1" "v" 5 1)
      (sampleDecision .LOW ["recurring_micro_costs"] 0) (initialMemory 0))

/-- C1: evaluated at the failing input — two recordTransactionOutcome
calls whose decisions list the same pattern type for the same
counterparty, at distinct clock readings — the store ends up with two
distinct Pattern entries for the (recurring_micro_costs, v) pair, holding
one occurrence each, because the map key embeds `Date.now()`; the claim
(and spec) require one merged Pattern with two occurrences. -/
theorem C1_pattern_identity_violated :
    memTwoDetections.patterns.map (fun kv => kv.1) =
      ["recurring_micro_costs-v-1", "recurring_micro_costs-v-2"] ∧
    memTwoDetections.patterns.map
      (fun kv => (kv.2.type, kv.2.occurrences.length)) =
      [("recurring_micro_costs", 1), ("recurring_micro_costs", 1)] := by
  decide

/-- Ledger before the second transaction for C3. -/
def ledgerOne : List Transaction := [sampleTx "t1" "v" 10 1]

/-- Ledger after the second transaction for C3. -/
def ledgerTwo : List Transaction :=
  [sampleTx "t1" "v" 10 1, sampleTx "t2" "v" 20 2]

/-- The failing run for C3: the first transaction creates the profile;
the second transaction for the same counterparty is then processed with
the grown ledger. -/
def memStaleProfile : ImmuneMemory :=
  updateMemoryFromTransaction ledgerTwo 2 (sampleTx "t2" "v" 20 2)
    (sampleDecision .LOW [] 0)
    (updateMemoryFromTransaction ledgerOne 1 (sampleTx "t1" "v" 10 1)
      (sampleDecision .LOW [] 0) (initialMemory 0))

/-- C3: evaluated at the failing input — after a second transaction for a
counterparty that already has a stored profile, the stored profile still
counts one transaction (`existing || build` keeps the stale profile),
while recomputing from the full history counts two; the claim (and spec)
require the stored profile to be the recomputed one. -/
theorem C3_profile_not_recomputed :
    (mapGet memStaleProfile.recipients "v").map
      (fun p => p.transactionHistory.count) = some 1 ∧
    (buildRecipientProfile ledgerTwo 2 "v"
      (ledgerTwo.filter (fun tx => tx.recipient == "v"))
      ).transactionHistory.count = 2 := by
  decide

/-- The per-counterparty history for C9: amounts 10, 10, 20, 20. -/
def ledgerDecline : List Transaction :=
  [sampleTx "d1" "v" 10 1, sampleTx "d2" "v" 10 2,
   sampleTx "d3" "v" 20 3, sampleTx "d4" "v" 20 4]

/-- C9: evaluated at the failing input — for the history 10, 10, 20, 20
the Declining Value detector fires and emits occurrences with severities
1, 2 and 2 (`amount / earlierAvg` is not normalized), so an occurrence
severity exceeds 1, violating the claimed severity range [0, 1]. -/
theorem C9_severity_exceeds_one :
    ((detectDecliningValue 5 (sampleTx "d4" "v" 20 4) ledgerDecline).map
      (fun p => p.occurrences.map (fun o => o.severity))) =
      some [1, 2, 2] ∧
    ¬ (∀ p ∈ (detectDecliningValue 5 (sampleTx "d4" "v" 20 4)
          ledgerDecline).toList,
        ∀ o ∈ p.occurrences, o.severity ≤ 1) := by
  constructor
  · simp [detectDecliningValue, ledgerDecline, sortByTimestamp, insertTx,
      takeLast, sumAmounts, sampleTx]
    norm_num
  · simp [detectDecliningValue, ledgerDecline, sortByTimestamp, insertTx,
      takeLast, sumAmounts, sampleTx]
    norm_num

end Immune
